import Mathlib

/-!
Verification of the Nginx-AI-Security-Suite log-analysis pipeline.

The definitions below are a shallow embedding of `backend/app/analysis.py`
and the log-analysis endpoints of `backend/main.py`:

* `splitlines`, `pystrip`, `pyCapitalize`, `py_count` model the Python
  string/`collections.Counter` primitives used by the source;
* `parseRuleLine` / `load_and_compile_regex` model the rule-file loader
  `load_and_compile_regex` (the regex engine `re.compile` is abstracted as a
  `compile : String → Option (String → Bool)` parameter, `None` standing for
  `re.error`, and a compiled pattern as the Boolean matcher that
  `pattern.search(line)` denotes);
* `scan_log_and_summarize` models the scanner of the same name;
* `VectorStore`, `similarity_search_with_relevance_scores` model the FAISS
  semantic cache at the interface the code uses;
* `analyze_log_data` models the full pipeline function of the same name;
* `start_log_analysis` / `run_analysis_in_background` model the job
  orchestration and its `(content-hash, log_type)` result cache.
-/

namespace NginxAI

/-- A Python line break as recognised by `str.splitlines` (single-character
terminators; the two-character `"\r\n"` is handled in `splitlinesAux`). -/
def isPyLineBreak (c : Char) : Bool :=
  c == '\n' || c == '\r' || c == '\x0b' || c == '\x0c' ||
  c == '\x1c' || c == '\x1d' || c == '\x1e' || c == '\u0085' ||
  c == ' ' || c == ' '

/-- Worker for `splitlines`: walks the character list accumulating the current
line (in reverse); a trailing segment without terminator is emitted, and an
empty input produces no lines, exactly as the Python `str.splitlines`. -/
def splitlinesAux : List Char → List Char → List String
  | [], acc => if acc.isEmpty then [] else [⟨acc.reverse⟩]
  | '\r' :: '\n' :: rest, acc => ⟨acc.reverse⟩ :: splitlinesAux rest []
  | c :: rest, acc =>
    if isPyLineBreak c then ⟨acc.reverse⟩ :: splitlinesAux rest []
    else splitlinesAux rest (c :: acc)

/-- Python `str.splitlines()` (keepends=False). -/
def splitlines (s : String) : List String := splitlinesAux s.data []

/-- Python `str.strip()` (whitespace removed from both ends). -/
def pystrip (s : String) : String :=
  ⟨((s.data.dropWhile Char.isWhitespace).reverse.dropWhile Char.isWhitespace).reverse⟩

/-- Python `str.capitalize()`: first character upper-cased, rest lower-cased. -/
def pyCapitalize (s : String) : String :=
  match s.data with
  | [] => ""
  | c :: cs => ⟨c.toUpper :: cs.map Char.toLower⟩

/-- `collections.Counter(names)[n]`: the multiplicity of `n` in `names`. -/
def py_count (names : List String) (n : String) : Nat :=
  names.countP (fun m => m == n)

/-- One compiled rule of `COMPILED_REGEX_PATTERNS[log_type]`: the dict
`{"id": ..., "name": ..., "pattern": re.compile(...)}`, with the compiled
pattern represented by the line predicate `pattern.search(line) is not None`. -/
structure Rule where
  id : String
  name : String
  pattern : String → Bool

/-- One element of the `detailed_findings` list:
the dict with keys Line (set to i + 1), Threat (the rule name) and
Log Entry (the matched line). -/
structure Finding where
  line : Nat
  threat : String
  logEntry : String
deriving DecidableEq

/-- The `COMPILED_REGEX_PATTERNS` dict, as an association list from log-format
tag to its ordered rule list. -/
abbrev Registry := List (String × List Rule)

/-- Python `dict` lookup (`d[k]` / `d.get(k)`), returning `none` when absent. -/
def dictFind {α : Type} : List (String × α) → String → Option α
  | [], _ => none
  | (k0, v0) :: rest, k => if k0 = k then some v0 else dictFind rest k

/-- Python `dict` assignment `d[k] = v`: replaces the binding if the key is
present, otherwise appends it. -/
def dictInsert {α : Type} : List (String × α) → String → α → List (String × α)
  | [], k, v => [(k, v)]
  | (k0, v0) :: rest, k, v =>
    if k0 = k then (k, v) :: rest else (k0, v0) :: dictInsert rest k v

/-- `COMPILED_REGEX_PATTERNS.get(log_type, [])`. -/
def registryGet (reg : Registry) (log_type : String) : List Rule :=
  match dictFind reg log_type with
  | some rules => rules
  | none => []

/-- The inner loop of `scan_log_and_summarize` for a single line: the first
rule whose pattern matches produces the one finding for that line (the `break`
after the first match), a line matching no rule produces none. -/
def scanLine (rules : List Rule) (idx : Nat) (line : String) : List Finding :=
  match rules.find? (fun r => r.pattern line) with
  | some r => [⟨idx + 1, r.name, line⟩]
  | none => []

/-- The outer loop of `scan_log_and_summarize`:
`for i, line in enumerate(log_content.splitlines())`. -/
def scanLines (rules : List Rule) : Nat → List String → List Finding
  | _, [] => []
  | i, l :: ls => scanLine rules i l ++ scanLines rules (i + 1) ls

/-- `Counter(threat_names).items()`: the distinct names in first-occurrence
order, each paired below with its multiplicity. -/
def counter_keys (names : List String) : List String :=
  names.foldl (fun acc n => if n ∈ acc then acc else acc ++ [n]) []

/-- `Counter(threat_names).items()` as a list of (name, count) pairs. -/
def counter_items (names : List String) : List (String × Nat) :=
  (counter_keys names).map (fun n => (n, py_count names n))

/-- Python string `<`: strict lexicographic comparison by code point. -/
def strLtB : List Char → List Char → Bool
  | [], [] => false
  | [], _ :: _ => true
  | _ :: _, [] => false
  | a :: as, b :: bs =>
    if a.toNat < b.toNat then true
    else if b.toNat < a.toNat then false
    else strLtB as bs

/-- Python `s < t` on strings. -/
def pyStrLt (s t : String) : Prop := strLtB s.data t.data = true

/-- Python `s <= t` on strings. -/
def pyStrLe (s t : String) : Prop := strLtB t.data s.data = false

instance : DecidableRel pyStrLt := fun _ _ => inferInstanceAs (Decidable (_ = _))

instance : DecidableRel pyStrLe := fun _ _ => inferInstanceAs (Decidable (_ = _))

/-- The order used by the Python builtin `sorted` on the (key, value) tuples of
`Counter.items()`: lexicographic on the pair, strings compared by code point. -/
def itemLE (a b : String × Nat) : Prop :=
  pyStrLt a.1 b.1 ∨ (a.1 = b.1 ∧ a.2 ≤ b.2)

instance : DecidableRel itemLE := fun _ _ =>
  inferInstanceAs (Decidable (_ ∨ _))

/-- `sorted(summary_counts.items())`. -/
def sorted_counts (names : List String) : List (String × Nat) :=
  List.insertionSort itemLE (counter_items names)

/-- The apostrophe character, used by the summary-line format string. -/
def squote : String := String.singleton (Char.ofNat 39)

/-- The per-threat f-string of the summary loop: dash, `Found`, the threat
name enclosed in single quotes, `pattern`, the count, `times.`. -/
def summaryLine (p : String × Nat) : String :=
  "- Found " ++ squote ++ p.1 ++ squote ++ " pattern " ++ Nat.repr p.2 ++ " times."

/-- `"\n".join(lines)`. -/
def joinLines : List String → String
  | [] => ""
  | [l] => l
  | l :: ls => l ++ "\n" ++ joinLines ls

/-- The summary half of `scan_log_and_summarize`: the deterministic, sorted
summary string built from the collected threat names. -/
def summary_string (threat_names : List String) : String :=
  joinLines ((sorted_counts threat_names).map summaryLine)

/-- `scan_log_and_summarize(log_content, log_type)`: the regex scan returning
the detailed findings and the deterministic summary string.  The global
`COMPILED_REGEX_PATTERNS` dict is passed explicitly as `reg`; the list
`threat_names` accumulated alongside `detailed_findings` in the source is
recovered as `findings.map Finding.threat` (one name is appended exactly when
one finding is). -/
def scan_log_and_summarize (reg : Registry) (log_content log_type : String) :
    List Finding × String :=
  let patterns_to_use := registryGet reg log_type
  let detailed_findings := scanLines patterns_to_use 0 (splitlines log_content)
  (detailed_findings, summary_string (detailed_findings.map Finding.threat))

/-- Maximal digit run at the head of a character list (`\d+`, greedy). -/
def spanDigits : List Char → List Char × List Char
  | [] => ([], [])
  | c :: cs =>
    if c.isDigit then
      let (ds, rest) := spanDigits cs
      (c :: ds, rest)
    else ([], c :: cs)

/-- Split a character list at its first colon; `none` if there is none. -/
def breakAtColon : List Char → Option (List Char × List Char)
  | [] => none
  | c :: cs =>
    if c = ':' then some ([], cs)
    else
      match breakAtColon cs with
      | some (nm, rest) => some (c :: nm, rest)
      | none => none

/-- The `re.match` of the loader against the pattern
`\[(\d+)\]\s*([^:]+):\s*(.*)`, returning the three capture groups: the
match requires a leading opening bracket, a non-empty digit run, a closing
bracket, then at least one non-colon character before the first colon.  The
`\s*` gaps and the exact greedy group boundaries are immaterial because the
loader applies `.strip()` to every group before use, so the groups are
returned as the raw segments (id digits, text before the first colon after
the closing bracket, text after that colon) here. -/
def parseRuleLine (s : String) : Option (String × String × String) :=
  match s.data with
  | '[' :: rest =>
    (match spanDigits rest with
     | ([], _) => none
     | (ds, rest1) =>
       match rest1 with
       | ']' :: t =>
         (match breakAtColon t with
          | some (nm, pat) => if nm = [] then none else some (⟨ds⟩, ⟨nm⟩, ⟨pat⟩)
          | none => none)
       | _ => none)
  | _ => none

/-- The per-line body of `load_and_compile_regex`: a line that does not match
the grammar is skipped, and a rule whose (stripped) pattern fails to compile
(`compile` returns `none`, standing for `re.error`) is dropped with only a
logged warning. -/
def load_line (compile : String → Option (String → Bool)) (line : String) :
    Option Rule :=
  match parseRuleLine line with
  | none => none
  | some (i, nm, pat) =>
    match compile (pystrip pat) with
    | some f => some ⟨pystrip i, pystrip nm, f⟩
    | none => none

/-- `load_and_compile_regex` for one rule file, as a function of its lines:
the loop `for line in f` appending each successfully compiled rule in file
order.  (`re.compile` is the abstract `compile` parameter; the surrounding
`try` and the log prints do not affect the produced rule list.) -/
def load_and_compile_regex (compile : String → Option (String → Bool))
    (lines : List String) : List Rule :=
  lines.filterMap (load_line compile)

/-- A document of the FAISS store: `page_content` (what gets embedded, and
what a hit returns) plus the `source_query` metadata attached on insert. -/
structure CacheEntry where
  content : String
  sourceQuery : String
deriving DecidableEq

/-- Modelled from the spec: the FAISS vector store is an external collaborator
("vector in, nearest-neighbors out").  It is modelled as the list of stored
documents together with an abstract similarity score (relevance score on the
0-1 scale, represented as `ℚ`) between a query string and the embedded
`page_content` of a stored document. -/
structure VectorStore where
  entries : List CacheEntry
  sim : String → String → ℚ

/-- The stored document most similar to the query, with its score (ties go to
the earlier entry). -/
def bestEntry (vs : VectorStore) (q : String) : Option (CacheEntry × ℚ) :=
  vs.entries.foldl
    (fun best e =>
      match best with
      | none => some (e, vs.sim q e.content)
      | some (b, s) =>
        if s < vs.sim q e.content then some (e, vs.sim q e.content)
        else some (b, s))
    none

/-- `score_threshold=0.95` of the lookup call. -/
def score_threshold : ℚ := mkRat 95 100

/-- Modelled from the spec: LangChain/FAISS
`similarity_search_with_relevance_scores(query, k=1, score_threshold=0.95)` —
nearest-neighbor search returning the top result only when its relevance
score meets or exceeds the fixed threshold, the empty list otherwise
("Below threshold ⇒ cache miss, not a partial/low-confidence hit"). -/
def similarity_search_with_relevance_scores (vs : VectorStore) (q : String) :
    List (CacheEntry × ℚ) :=
  match bestEntry vs q with
  | some (e, s) => if score_threshold ≤ s then [(e, s)] else []
  | none => []

/-- The dict returned by `analyze_log_data`.  Each Python return path builds a
dict with a different key set, so every key that some path omits is an
`Option` here: `detailed_findings` models the `"detailed_findings"` key,
`source` the `"source"` key, and `details_regex_findings` the
`"details": {"regex_findings": ...}` nesting of the error path. -/
structure AnalyzeResult where
  summary : String
  detailed_findings : Option (List Finding)
  source : Option String
  details_regex_findings : Option (List Finding)
deriving DecidableEq

/-- The external effects `analyze_log_data` calls out to: `ready` is the
`all([rag_chain, vector_store, embeddings_model])` guard, `now` the formatted
`datetime.now(timezone.utc)` string, `invoke` the LCEL chain call (arguments:
`report_header`, `context`, capitalised `log_type`; `Except.error` stands for
a raised exception), and `insertAndPersist` the
`add_documents`/`save_local`/`load_local` cache-fill sequence, returning the
reloaded store or a raised exception. -/
structure Deps where
  ready : Bool
  now : String
  invoke : String → String → String → Except String String
  insertAndPersist : VectorStore → CacheEntry → Except String VectorStore

/-- `analyze_log_data(log_content, rag_chain, log_type)`: the full analysis
workflow with semantic caching, regex scanning and reporting, returning the
result dict together with the (possibly updated) global `vector_store`.  On
the exception path the store is returned unchanged (the model does not track
the partially mutated in-memory FAISS object, which no later read in the
source distinguishes before the next successful reload). -/
def analyze_log_data (reg : Registry) (deps : Deps) (vs : VectorStore)
    (log_content log_type : String) : AnalyzeResult × VectorStore :=
  if deps.ready = false then
    ({ summary := "## Analysis Failed: AI pipeline not ready.",
       detailed_findings := some [], source := none,
       details_regex_findings := none }, vs)
  else
    let scanned := scan_log_and_summarize reg log_content log_type
    let detailed_findings := scanned.1
    let summary_for_cache := scanned.2
    if detailed_findings.isEmpty then
      ({ summary := "## ✅ No Threats Detected",
         detailed_findings := some [], source := none,
         details_regex_findings := none }, vs)
    else
      let cache_query := "LogType: " ++ log_type ++ "\n" ++ summary_for_cache
      match similarity_search_with_relevance_scores vs cache_query with
      | (doc, _) :: _ =>
        ({ summary := doc.content,
           detailed_findings := some detailed_findings,
           source := some "Retrieved from Semantic Cache",
           details_regex_findings := none }, vs)
      | [] =>
        let report_header :=
          "# Security Report: " ++ pyCapitalize log_type ++ " Log\n\n_" ++
            deps.now ++ "_"
        match deps.invoke report_header summary_for_cache (pyCapitalize log_type) with
        | .error e =>
          ({ summary := "## AI Analysis Error\n\n**Error:** " ++ e,
             detailed_findings := none, source := none,
             details_regex_findings := some detailed_findings }, vs)
        | .ok ai_summary =>
          match deps.insertAndPersist vs ⟨ai_summary, cache_query⟩ with
          | .error e =>
            ({ summary := "## AI Analysis Error\n\n**Error:** " ++ e,
               detailed_findings := none, source := none,
               details_regex_findings := some detailed_findings }, vs)
          | .ok vs2 =>
            ({ summary := ai_summary,
               detailed_findings := some detailed_findings,
               source := some "Newly Generated by AI",
               details_regex_findings := none }, vs2)

/-- One entry of the `jobs` dict of `main.py`. -/
structure JobRecord where
  status : String
  step : Option String
  result : Option AnalyzeResult
deriving DecidableEq

/-- The mutable state of the log-analysis orchestration in `main.py`: the
`jobs` dict, the `analysis_cache` dict keyed by `f"{content_hash}_{log_type}"`,
and the global FAISS `vector_store`. -/
structure OrchState where
  jobs : List (String × JobRecord)
  analysisCache : List (String × AnalyzeResult)
  vs : VectorStore

/-- `run_analysis_in_background(job_id, content_hash, log_content, rag_chain,
log_type)`: runs `analyze_log_data`, stores the result in `analysis_cache`
under the key it was handed, and marks the job complete.  The transient
`step` progress strings and the `time.sleep(2)` are not modelled; the
surrounding `try/except` has nothing to catch because the modelled
`analyze_log_data` is total. -/
def run_analysis_in_background (reg : Registry) (deps : Deps)
    (job_id content_hash log_content log_type : String)
    (st : OrchState) : OrchState :=
  let out := analyze_log_data reg deps st.vs log_content log_type
  { jobs := dictInsert st.jobs job_id ⟨"complete", none, some out.1⟩,
    analysisCache := dictInsert st.analysisCache content_hash out.1,
    vs := out.2 }

/-- `start_log_analysis`: hashes the uploaded bytes (`hash` abstracts
`hashlib.sha256(...).hexdigest()`), registers the job as processing, and
either serves the already-computed result from `analysis_cache` under
`cache_key = f"{content_hash}_{log_type}"` or runs the background analysis
(modelled synchronously: `BackgroundTasks` runs the task after the 202
response, and the claims concern the states after it has run). -/
def start_log_analysis (hash : String → String) (reg : Registry) (deps : Deps)
    (st : OrchState) (log_content log_type job_id : String) : OrchState :=
  let cache_key := hash log_content ++ "_" ++ log_type
  let st1 := { st with
    jobs := dictInsert st.jobs job_id ⟨"processing", some "Starting analysis...", none⟩ }
  match dictFind st1.analysisCache cache_key with
  | some res =>
    { st1 with jobs := dictInsert st1.jobs job_id ⟨"complete", none, some res⟩ }
  | none =>
    run_analysis_in_background reg deps job_id cache_key log_content log_type st1

/-- The threat-name multiset of a scan: the `threat_names` list the source
accumulates next to `detailed_findings`. -/
def threat_names (reg : Registry) (log_content log_type : String) : List String :=
  (scan_log_and_summarize reg log_content log_type).1.map Finding.threat

/-! ### Concrete fixtures for witnesses and counterexamples -/

/-- A rule named `XSS` whose pattern matches exactly the line `"attack"`. -/
def ruleXSS : Rule := ⟨"1", "XSS", fun l => l == "attack"⟩

/-- A second rule, later in file order, whose pattern also matches `"attack"`. -/
def ruleSQLi : Rule := ⟨"2", "SQLi", fun l => l == "attack"⟩

/-- A registry with an nginx rule set of two rules. -/
def demoReg : Registry := [("nginx", [ruleXSS, ruleSQLi])]

/-- An empty vector store whose similarity scores are all 0. -/
def vsEmpty : VectorStore := ⟨[], fun _ _ => mkRat 0 1⟩

/-- A stored cache document. -/
def entryCached : CacheEntry := ⟨"CACHED REPORT", "somekey"⟩

/-- A store holding `entryCached` whose similarity scores are all 1. -/
def vsHit : VectorStore := ⟨[entryCached], fun _ _ => mkRat 1 1⟩

/-- Healthy external dependencies: generation returns `"REPORT"`, cache fill
appends and succeeds. -/
def depsOK : Deps :=
  ⟨true, "2025-01-01 00:00:00 UTC", fun _ _ _ => Except.ok "REPORT",
    fun vs e => Except.ok ⟨vs.entries ++ [e], vs.sim⟩⟩

/-- Dependencies whose LLM call raises. -/
def depsInvokeFail : Deps :=
  ⟨true, "2025-01-01 00:00:00 UTC", fun _ _ _ => Except.error "quota exceeded",
    fun vs e => Except.ok ⟨vs.entries ++ [e], vs.sim⟩⟩

/-- Dependencies whose generation succeeds but whose cache insert/persist
step raises. -/
def depsPersistFail : Deps :=
  ⟨true, "2025-01-01 00:00:00 UTC", fun _ _ _ => Except.ok "REPORT",
    fun _ _ => Except.error "disk full"⟩

/-- An orchestrator state with no jobs, no result cache, an empty store. -/
def demoState : OrchState := ⟨[], [], vsEmpty⟩

/-- Stand-in for `hashlib.sha256(..).hexdigest()` in concrete runs (any
injective function of the content plays the same role in the dedup key). -/
def idHash : String → String := fun s => s

/-! ### Helper lemmas -/

lemma string_eq_of_data_eq {s t : String} (h : s.data = t.data) : s = t := by
  cases s; cases t; simp_all

lemma char_eq_of_toNat_eq {a b : Char} (h : a.toNat = b.toNat) : a = b :=
  Char.eq_of_val_eq (UInt32.eq_of_toBitVec_eq (BitVec.eq_of_toNat_eq h))

lemma strLtB_irrefl : ∀ l : List Char, strLtB l l = false
  | [] => rfl
  | a :: as => by simp [strLtB, strLtB_irrefl as]

lemma strLtB_asymm : ∀ (l m : List Char), strLtB l m = true → strLtB m l = false := by
  intro l
  induction l with
  | nil =>
    intro m h
    cases m with
    | nil => simp [strLtB] at h
    | cons b bs => simp [strLtB]
  | cons a as ih =>
    intro m h
    cases m with
    | nil => simp [strLtB] at h
    | cons b bs =>
      simp only [strLtB] at h ⊢
      by_cases h1 : a.toNat < b.toNat
      · have h2 : ¬ b.toNat < a.toNat := by omega
        simp [h1, h2]
      · by_cases h2 : b.toNat < a.toNat
        · simp [h1, h2] at h
        · simp only [h1, h2, if_false] at h ⊢
          exact ih bs h

lemma strLtB_conn : ∀ (l m : List Char),
    strLtB l m = false → strLtB m l = false → l = m := by
  intro l
  induction l with
  | nil =>
    intro m h1 _
    cases m with
    | nil => rfl
    | cons b bs => simp [strLtB] at h1
  | cons a as ih =>
    intro m h1 h2
    cases m with
    | nil => simp [strLtB] at h2
    | cons b bs =>
      simp only [strLtB] at h1 h2
      by_cases hab : a.toNat < b.toNat
      · simp [hab] at h1
      · by_cases hba : b.toNat < a.toNat
        · simp [hab, hba] at h2
        · have he : a = b := char_eq_of_toNat_eq (by omega)
          simp only [hab, hba, if_false] at h1 h2
          rw [he, ih bs h1 h2]

lemma strLtB_trans : ∀ (l m k : List Char),
    strLtB l m = true → strLtB m k = true → strLtB l k = true := by
  intro l
  induction l with
  | nil =>
    intro m k h1 h2
    cases m with
    | nil => simp [strLtB] at h1
    | cons b bs =>
      cases k with
      | nil => simp [strLtB] at h2
      | cons c cs => simp [strLtB]
  | cons a as ih =>
    intro m k h1 h2
    cases m with
    | nil => simp [strLtB] at h1
    | cons b bs =>
      cases k with
      | nil => simp [strLtB] at h2
      | cons c cs =>
        simp only [strLtB] at h1 h2 ⊢
        by_cases hab : a.toNat < b.toNat
        · by_cases hbc : b.toNat < c.toNat
          · have hac : a.toNat < c.toNat := by omega
            simp [hac]
          · by_cases hcb : c.toNat < b.toNat
            · simp [hbc, hcb] at h2
            · have hac : a.toNat < c.toNat := by omega
              simp [hac]
        · by_cases hba : b.toNat < a.toNat
          · simp [hab, hba] at h1
          · by_cases hbc : b.toNat < c.toNat
            · have hac : a.toNat < c.toNat := by omega
              simp [hac]
            · by_cases hcb : c.toNat < b.toNat
              · simp [hbc, hcb] at h2
              · have hac : ¬ a.toNat < c.toNat := by omega
                have hca : ¬ c.toNat < a.toNat := by omega
                simp only [hab, hba, if_false] at h1
                simp only [hbc, hcb, if_false] at h2
                simp only [hac, hca, if_false]
                exact ih bs cs h1 h2

instance : IsTrans (String × Nat) itemLE where
  trans a b c hab hbc := by
    rcases hab with h | ⟨he, hn⟩
    · rcases hbc with h' | ⟨he', hn'⟩
      · exact Or.inl (strLtB_trans _ _ _ h h')
      · exact Or.inl (he' ▸ h)
    · rcases hbc with h' | ⟨he', hn'⟩
      · exact Or.inl (he ▸ h')
      · exact Or.inr ⟨he.trans he', hn.trans hn'⟩

instance : IsTotal (String × Nat) itemLE where
  total a b := by
    by_cases h1 : strLtB a.1.data b.1.data = true
    · exact Or.inl (Or.inl h1)
    · by_cases h2 : strLtB b.1.data a.1.data = true
      · exact Or.inr (Or.inl h2)
      · have he : a.1 = b.1 :=
          string_eq_of_data_eq (strLtB_conn _ _ (by simpa using h1) (by simpa using h2))
        rcases Nat.le_total a.2 b.2 with hn | hn
        · exact Or.inl (Or.inr ⟨he, hn⟩)
        · exact Or.inr (Or.inr ⟨he.symm, hn⟩)

instance : IsAntisymm (String × Nat) itemLE where
  antisymm a b hab hba := by
    rcases hab with h | ⟨he, hn⟩
    · rcases hba with h' | ⟨he', hn'⟩
      · have ht : strLtB b.1.data a.1.data = true := h'
        rw [strLtB_asymm _ _ h] at ht
        exact absurd ht (by simp)
      · have ht : strLtB a.1.data b.1.data = true := h
        rw [he'] at ht
        rw [strLtB_irrefl] at ht
        exact absurd ht (by simp)
    · rcases hba with h' | ⟨he', hn'⟩
      · have ht : strLtB b.1.data a.1.data = true := h'
        rw [he] at ht
        rw [strLtB_irrefl] at ht
        exact absurd ht (by simp)
      · exact Prod.ext he (Nat.le_antisymm hn hn')

lemma mem_counter_foldl (l : List String) :
    ∀ (acc : List String) (a : String),
      (a ∈ l.foldl (fun acc n => if n ∈ acc then acc else acc ++ [n]) acc) ↔
        a ∈ acc ∨ a ∈ l := by
  induction l with
  | nil => simp
  | cons n t ih =>
    intro acc a
    simp only [List.foldl_cons]
    rw [ih]
    by_cases h : n ∈ acc
    · simp only [h, if_true, List.mem_cons]
      constructor
      · rintro (ha | ha)
        · exact Or.inl ha
        · exact Or.inr (Or.inr ha)
      · rintro (ha | ha | ha)
        · exact Or.inl ha
        · exact Or.inl (ha ▸ h)
        · exact Or.inr ha
    · simp only [h, if_false, List.mem_append, List.mem_singleton, List.mem_cons]
      tauto

lemma mem_counter_keys (l : List String) (a : String) :
    a ∈ counter_keys l ↔ a ∈ l := by
  unfold counter_keys
  rw [mem_counter_foldl]
  simp

lemma nodup_counter_foldl (l : List String) :
    ∀ acc : List String, acc.Nodup →
      (l.foldl (fun acc n => if n ∈ acc then acc else acc ++ [n]) acc).Nodup := by
  induction l with
  | nil => intro acc h; simpa using h
  | cons n t ih =>
    intro acc h
    simp only [List.foldl_cons]
    by_cases hn : n ∈ acc
    · simpa [hn] using ih acc h
    · refine ih _ ?_
      simp only [hn, if_false]
      rw [List.nodup_append]
      refine ⟨h, by simp, ?_⟩
      intro a ha hmem
      simp only [List.mem_singleton] at hmem
      exact hn (hmem ▸ ha)

lemma nodup_counter_keys (l : List String) : (counter_keys l).Nodup :=
  nodup_counter_foldl l [] (by simp)

lemma py_count_perm {l1 l2 : List String} (h : l1.Perm l2) (n : String) :
    py_count l1 n = py_count l2 n :=
  h.countP_eq _

lemma counter_keys_perm {l1 l2 : List String} (h : l1.Perm l2) :
    (counter_keys l1).Perm (counter_keys l2) :=
  (List.perm_ext_iff_of_nodup (nodup_counter_keys l1) (nodup_counter_keys l2)).mpr
    (fun a => by rw [mem_counter_keys, mem_counter_keys]; exact h.mem_iff)

lemma counter_items_perm {l1 l2 : List String} (h : l1.Perm l2) :
    (counter_items l1).Perm (counter_items l2) := by
  unfold counter_items
  have hmap : (counter_keys l2).map (fun n => (n, py_count l1 n)) =
      (counter_keys l2).map (fun n => (n, py_count l2 n)) :=
    List.map_congr_left (fun a _ => by rw [py_count_perm h])
  exact hmap ▸ (counter_keys_perm h).map (fun n => (n, py_count l1 n))

lemma sorted_counts_sorted (l : List String) :
    List.Sorted itemLE (sorted_counts l) :=
  List.sorted_insertionSort itemLE _

lemma sorted_counts_perm (l : List String) :
    (sorted_counts l).Perm (counter_items l) :=
  List.perm_insertionSort itemLE _

lemma sorted_counts_eq_of_perm {l1 l2 : List String} (h : l1.Perm l2) :
    sorted_counts l1 = sorted_counts l2 :=
  List.eq_of_perm_of_sorted
    ((sorted_counts_perm l1).trans
      ((counter_items_perm h).trans (sorted_counts_perm l2).symm))
    (sorted_counts_sorted l1) (sorted_counts_sorted l2)

lemma dictFind_dictInsert_self {α : Type} (d : List (String × α)) (k : String) (v : α) :
    dictFind (dictInsert d k v) k = some v := by
  induction d with
  | nil => simp [dictInsert, dictFind]
  | cons p t ih =>
    obtain ⟨k0, v0⟩ := p
    by_cases h : k0 = k
    · simp [dictInsert, dictFind, h]
    · simp [dictInsert, dictFind, h, ih]

lemma dictFind_dictInsert_ne {α : Type} (d : List (String × α)) (k : String) (v : α)
    (k' : String) (h : k' ≠ k) :
    dictFind (dictInsert d k v) k' = dictFind d k' := by
  have hkk : ¬ (k = k') := fun he => h he.symm
  induction d with
  | nil => simp [dictInsert, dictFind, hkk]
  | cons p t ih =>
    obtain ⟨k0, v0⟩ := p
    by_cases hk : k0 = k
    · subst hk
      simp [dictInsert, dictFind, hkk]
    · by_cases hk' : k0 = k'
      · simp [dictInsert, dictFind, hk, hk', h]
      · simp [dictInsert, dictFind, hk, hk', ih]

lemma scanLines_nil_rules : ∀ (i : Nat) (ls : List String), scanLines [] i ls = [] := by
  intro i ls
  induction ls generalizing i with
  | nil => rfl
  | cons l t ih => simp [scanLines, scanLine, List.find?, ih]

/-- `List.find?` returns the element at the least index satisfying the
predicate, when any index satisfies it. -/
lemma find_first_spec (p : Rule → Bool) :
    ∀ l : List Rule, (∃ i, ∃ h : i < l.length, p (l.get ⟨i, h⟩) = true) →
      ∃ k, ∃ hk : k < l.length,
        p (l.get ⟨k, hk⟩) = true ∧
        (∀ m (hm : m < l.length), m < k → p (l.get ⟨m, hm⟩) = false) ∧
        (∀ i (hi : i < l.length), p (l.get ⟨i, hi⟩) = true → k ≤ i) ∧
        l.find? p = some (l.get ⟨k, hk⟩) := by
  intro l
  induction l with
  | nil =>
    rintro ⟨i, hi, _⟩
    exact absurd hi (by simp)
  | cons r t ih =>
    intro hex
    by_cases hr : p r = true
    · refine ⟨0, by simp, by simpa using hr, ?_, ?_, ?_⟩
      · intro m hm hmk
        exact absurd hmk (by omega)
      · intro i hi _
        exact Nat.zero_le i
      · simp [List.find?, hr]
    · have hex' : ∃ i, ∃ h : i < t.length, p (t.get ⟨i, h⟩) = true := by
        rcases hex with ⟨i, hi, hp⟩
        cases i with
        | zero => exact absurd (by simpa using hp) hr
        | succ j =>
          exact ⟨j, by simpa using hi, by simpa using hp⟩
      rcases ih hex' with ⟨k, hk, hpk, hmin, hle, hfind⟩
      have hrf : p r = false := by
        cases hpr : p r
        · rfl
        · exact absurd hpr hr
      refine ⟨k + 1, by simpa using hk, by simpa using hpk, ?_, ?_, ?_⟩
      · intro m hm hmk
        cases m with
        | zero => simpa using hrf
        | succ j => simpa using hmin j (by simpa using hm) (by omega)
      · intro i hi hpi
        cases i with
        | zero => exact absurd (by simpa using hpi) hr
        | succ j => exact Nat.succ_le_succ (hle j (by simpa using hi) (by simpa using hpi))
      · have hstep : (r :: t).find? p = t.find? p := by
          simp [List.find?, hrf]
        rw [hstep, hfind]
        simp

/-! ### Properties of the summary builder -/

lemma itemLE_keys_le {a b : String × Nat} (h : itemLE a b) : pyStrLe a.1 b.1 := by
  show strLtB b.1.data a.1.data = false
  rcases h with h | ⟨he, _⟩
  · exact strLtB_asymm _ _ h
  · rw [he]
    exact strLtB_irrefl _

lemma keys_counter_items (names : List String) :
    (counter_items names).map Prod.fst = counter_keys names := by
  show ((counter_keys names).map (fun n => (n, py_count names n))).map Prod.fst =
    counter_keys names
  induction counter_keys names with
  | nil => rfl
  | cons a t ih => simp [ih]

lemma mem_keys_sorted_counts (names : List String) (n : String) :
    n ∈ (sorted_counts names).map Prod.fst ↔ n ∈ names := by
  rw [((sorted_counts_perm names).map Prod.fst).mem_iff, keys_counter_items,
    mem_counter_keys]

lemma nodup_keys_sorted_counts (names : List String) :
    ((sorted_counts names).map Prod.fst).Nodup := by
  have h1 : ((counter_items names).map Prod.fst).Nodup := by
    rw [keys_counter_items]
    exact nodup_counter_keys names
  exact (((sorted_counts_perm names).map Prod.fst).nodup_iff).mpr h1

lemma sorted_keys_sorted_counts (names : List String) :
    ((sorted_counts names).map Prod.fst).Pairwise pyStrLe :=
  (sorted_counts_sorted names).map Prod.fst (fun _ _ h => itemLE_keys_le h)

lemma counts_sorted_counts (names : List String) :
    ∀ p ∈ sorted_counts names, p.2 = py_count names p.1 := by
  intro p hp
  have hp' : p ∈ counter_items names := (sorted_counts_perm names).mem_iff.mp hp
  unfold counter_items at hp'
  rcases List.mem_map.mp hp' with ⟨n, _, he⟩
  rw [← he]

/-! ### Claim theorems -/

/-- C2 counterexample: the summary line produced by the scan for one `XSS`
finding starts with a dash and a space before the word Found, so it is not
formatted exactly as the claim states (Found, name, pattern, count, times
with no leading dash). -/
theorem c2_counterexample :
    (scan_log_and_summarize demoReg "attack" "nginx").1.map Finding.threat = ["XSS"] ∧
    (scan_log_and_summarize demoReg "attack" "nginx").2 =
      "- Found " ++ squote ++ "XSS" ++ squote ++ " pattern 1 times." ∧
    (scan_log_and_summarize demoReg "attack" "nginx").2 ≠
      "Found " ++ squote ++ "XSS" ++ squote ++ " pattern 1 times." := by
  decide

/-- C2 (amended): for every input, the ThreatSummary produced by
`scan_log_and_summarize` is the newline-join of one line per distinct threat
name of the Findings, each formatted exactly as
dash, space, Found, the quoted name, pattern, count, times (note the leading
dash) where the count is the number of Findings of that name, and the lines are sorted
alphabetically (by code point) on the threat name, with no duplicated name. -/
theorem c2_summary_one_sorted_line_per_name (reg : Registry) (log_content log_type : String) :
    (scan_log_and_summarize reg log_content log_type).2 =
      joinLines ((sorted_counts (threat_names reg log_content log_type)).map
        (fun p => "- Found " ++ squote ++ p.1 ++ squote ++ " pattern " ++
          Nat.repr p.2 ++ " times.")) ∧
    ((sorted_counts (threat_names reg log_content log_type)).map Prod.fst).Pairwise pyStrLe ∧
    ((sorted_counts (threat_names reg log_content log_type)).map Prod.fst).Nodup ∧
    (∀ n, n ∈ (sorted_counts (threat_names reg log_content log_type)).map Prod.fst ↔
      n ∈ threat_names reg log_content log_type) ∧
    (∀ p ∈ sorted_counts (threat_names reg log_content log_type),
      p.2 = py_count (threat_names reg log_content log_type) p.1) := by
  refine ⟨rfl, sorted_keys_sorted_counts _, nodup_keys_sorted_counts _,
    fun n => mem_keys_sorted_counts _ n, counts_sorted_counts _⟩

/-- C2 witness: the amended theorem applied at a concrete scan. -/
theorem c2_summary_one_sorted_line_per_name_witness :
    (scan_log_and_summarize demoReg "attack" "nginx").2 =
      joinLines ((sorted_counts (threat_names demoReg "attack" "nginx")).map
        (fun p => "- Found " ++ squote ++ p.1 ++ squote ++ " pattern " ++
          Nat.repr p.2 ++ " times.")) ∧
    ((sorted_counts (threat_names demoReg "attack" "nginx")).map Prod.fst).Pairwise pyStrLe ∧
    ((sorted_counts (threat_names demoReg "attack" "nginx")).map Prod.fst).Nodup ∧
    (∀ n, n ∈ (sorted_counts (threat_names demoReg "attack" "nginx")).map Prod.fst ↔
      n ∈ threat_names demoReg "attack" "nginx") ∧
    (∀ p ∈ sorted_counts (threat_names demoReg "attack" "nginx"),
      p.2 = py_count (threat_names demoReg "attack" "nginx") p.1) :=
  c2_summary_one_sorted_line_per_name demoReg "attack" "nginx"

/-- C6: two sequences of Findings whose threat-name lists are permutations of
each other produce byte-identical ThreatSummary strings — the summary depends
only on the multiset of threat names. -/
theorem c6_summary_perm_invariant (fs1 fs2 : List Finding)
    (h : (fs1.map Finding.threat).Perm (fs2.map Finding.threat)) :
    summary_string (fs1.map Finding.threat) = summary_string (fs2.map Finding.threat) := by
  unfold summary_string
  rw [sorted_counts_eq_of_perm h]

/-- C6 witness: permuted findings with names `["B", "A"]` and `["A", "B"]`. -/
theorem c6_summary_perm_invariant_witness :
    (([⟨1, "B", "x"⟩, ⟨2, "A", "y"⟩] : List Finding).map Finding.threat).Perm
      (([⟨1, "A", "y"⟩, ⟨2, "B", "x"⟩] : List Finding).map Finding.threat) ∧
    summary_string (([⟨1, "B", "x"⟩, ⟨2, "A", "y"⟩] : List Finding).map Finding.threat) =
      summary_string (([⟨1, "A", "y"⟩, ⟨2, "B", "x"⟩] : List Finding).map Finding.threat) :=
  ⟨by decide, c6_summary_perm_invariant _ _ (by decide)⟩

/-- C7: if a line (the whole submitted log) matches two rules of the selected
rule set, the scan produces exactly one Finding for it, for the matching rule
at the least registry index — every earlier rule fails on the line, so the
first match in file order wins. -/
theorem c7_first_match_wins
    (reg : Registry) (log_content log_type line : String) (rules : List Rule)
    (hreg : registryGet reg log_type = rules)
    (hsplit : splitlines log_content = [line])
    (i j : Nat) (hi : i < rules.length) (hj : j < rules.length) (_hij : i < j)
    (hmi : (rules.get ⟨i, hi⟩).pattern line = true)
    (_hmj : (rules.get ⟨j, hj⟩).pattern line = true) :
    ∃ k, ∃ hk : k < rules.length,
      k ≤ i ∧
      (rules.get ⟨k, hk⟩).pattern line = true ∧
      (∀ m (hm : m < rules.length), m < k → (rules.get ⟨m, hm⟩).pattern line = false) ∧
      (scan_log_and_summarize reg log_content log_type).1 =
        [⟨1, (rules.get ⟨k, hk⟩).name, line⟩] := by
  rcases find_first_spec (fun r => r.pattern line) rules ⟨i, hi, hmi⟩ with
    ⟨k, hk, hpk, hmin, hle, hfind⟩
  refine ⟨k, hk, hle i hi hmi, hpk, hmin, ?_⟩
  show (scan_log_and_summarize reg log_content log_type).1 = _
  unfold scan_log_and_summarize
  rw [hreg, hsplit]
  show scanLine rules 0 line ++ scanLines rules 1 [] = _
  rw [scanLines]
  unfold scanLine
  rw [hfind]
  simp

/-- C7 witness: `"attack"` matches both rules of the demo registry; the scan
returns exactly one Finding, for the first rule (`XSS`). -/
theorem c7_first_match_wins_witness :
    ∃ k, ∃ hk : k < [ruleXSS, ruleSQLi].length,
      k ≤ 0 ∧
      ([ruleXSS, ruleSQLi].get ⟨k, hk⟩).pattern "attack" = true ∧
      (∀ m (hm : m < [ruleXSS, ruleSQLi].length), m < k →
        ([ruleXSS, ruleSQLi].get ⟨m, hm⟩).pattern "attack" = false) ∧
      (scan_log_and_summarize demoReg "attack" "nginx").1 =
        [⟨1, ([ruleXSS, ruleSQLi].get ⟨k, hk⟩).name, "attack"⟩] :=
  c7_first_match_wins demoReg "attack" "nginx" "attack" [ruleXSS, ruleSQLi]
    rfl (by decide) 0 1 (by decide) (by decide) (by decide) (by decide) (by decide)

/-- C8: scanning an empty input, or scanning with a format tag that is not a
key of the registry, returns the empty Findings list and the empty summary
string — the "no threats detected" shape — and, being a total function,
never raises. -/
theorem c8_empty_or_unknown_yields_empty
    (reg : Registry) (log_content log_type : String)
    (h : log_content = "" ∨ registryGet reg log_type = []) :
    scan_log_and_summarize reg log_content log_type = ([], "") := by
  rcases h with h | h
  · subst h
    rfl
  · have hz : scan_log_and_summarize reg log_content log_type =
        (scanLines (registryGet reg log_type) 0 (splitlines log_content),
          summary_string ((scanLines (registryGet reg log_type) 0
            (splitlines log_content)).map Finding.threat)) := rfl
    rw [hz, h, scanLines_nil_rules]
    rfl

/-- C8 witness: the tag `"apache"` is absent from the demo registry. -/
theorem c8_empty_or_unknown_yields_empty_witness :
    (registryGet demoReg "apache" = []) ∧
    scan_log_and_summarize demoReg "attack" "apache" = ([], "") :=
  ⟨rfl, c8_empty_or_unknown_yields_empty demoReg "attack" "apache" (Or.inr rfl)⟩

/-- C9: a line that does not match the rule grammar, or whose pattern fails
to compile, is dropped by the loader and only that rule is lost: loading the
file with the bad line present yields exactly the rules of the surrounding
well-formed lines, in file order, and always completes. -/
theorem c9_loader_drops_only_bad_line
    (compile : String → Option (String → Bool))
    (lines1 lines2 : List String) (bad : String)
    (hbad : parseRuleLine bad = none ∨
      ∃ i nm pat, parseRuleLine bad = some (i, nm, pat) ∧ compile (pystrip pat) = none) :
    load_and_compile_regex compile (lines1 ++ bad :: lines2) =
      load_and_compile_regex compile lines1 ++ load_and_compile_regex compile lines2 := by
  have hnone : load_line compile bad = none := by
    rcases hbad with h | ⟨i, nm, pat, hp, hc⟩
    · simp [load_line, h]
    · simp [load_line, hp, hc]
  unfold load_and_compile_regex
  rw [List.filterMap_append]
  simp [List.filterMap_cons, hnone]

/-- C9 witness: a colon-less line between two well-formed rules is skipped
and the well-formed rules load in order. -/
theorem c9_loader_drops_only_bad_line_witness :
    load_and_compile_regex (fun _ => some (fun _ => true))
        (["[001] SQLi: a"] ++ "no colon here" :: ["[2] B: c"]) =
      load_and_compile_regex (fun _ => some (fun _ => true)) ["[001] SQLi: a"] ++
        load_and_compile_regex (fun _ => some (fun _ => true)) ["[2] B: c"] :=
  c9_loader_drops_only_bad_line (fun _ => some (fun _ => true))
    ["[001] SQLi: a"] ["[2] B: c"] "no colon here" (Or.inl (by decide))

lemma isEmpty_false_of_ne_nil {l : List Finding} (h : l ≠ []) : l.isEmpty = false := by
  simp [List.isEmpty_eq_false, h]

/-- C5: if the LLM-generation call raises (any error string `e`), the
pipeline catches it and returns a result whose body is the error report
`"## AI Analysis Error" ++ ...` (so it begins with the marker), with the
Findings already computed by the scan still included (under the
`details.regex_findings` nesting of the error dict), and no exception escapes (the function is total
and the store is unchanged). -/
theorem c5_generation_error_returns_error_report
    (reg : Registry) (deps : Deps) (vs : VectorStore) (log_content log_type e : String)
    (hready : deps.ready = true)
    (hfind : (scan_log_and_summarize reg log_content log_type).1 ≠ [])
    (hmiss : similarity_search_with_relevance_scores vs
      ("LogType: " ++ log_type ++ "\n" ++ (scan_log_and_summarize reg log_content log_type).2) = [])
    (hinv : deps.invoke
        ("# Security Report: " ++ pyCapitalize log_type ++ " Log\n\n_" ++ deps.now ++ "_")
        (scan_log_and_summarize reg log_content log_type).2 (pyCapitalize log_type) =
      Except.error e) :
    (analyze_log_data reg deps vs log_content log_type).1.summary =
        "## AI Analysis Error" ++ ("\n\n**Error:** " ++ e) ∧
    (analyze_log_data reg deps vs log_content log_type).1.details_regex_findings =
        some (scan_log_and_summarize reg log_content log_type).1 ∧
    (analyze_log_data reg deps vs log_content log_type).2 = vs := by
  have hempty := isEmpty_false_of_ne_nil hfind
  simp [analyze_log_data, hready, hempty, hmiss, hinv]
  rw [← String.append_assoc]
  have hlit : ("## AI Analysis Error" : String) ++ "\n\n**Error:** " =
      "## AI Analysis Error\n\n**Error:** " := by decide
  rw [hlit]

/-- C5 witness: the theorem applied to dependencies whose LLM call raises
`"quota exceeded"`. -/
theorem c5_generation_error_returns_error_report_witness :
    (analyze_log_data demoReg depsInvokeFail vsEmpty "attack" "nginx").1.summary =
        "## AI Analysis Error" ++ ("\n\n**Error:** " ++ "quota exceeded") ∧
    (analyze_log_data demoReg depsInvokeFail vsEmpty "attack" "nginx").1.details_regex_findings =
        some (scan_log_and_summarize demoReg "attack" "nginx").1 ∧
    (analyze_log_data demoReg depsInvokeFail vsEmpty "attack" "nginx").2 = vsEmpty :=
  c5_generation_error_returns_error_report demoReg depsInvokeFail vsEmpty
    "attack" "nginx" "quota exceeded" rfl (by decide) rfl rfl

/-- C3 counterexample: generation succeeds (`invoke` returns `"REPORT"`) but
the cache insert/persist step fails; the pipeline returns the
`"## AI Analysis Error"` body, not the freshly generated `"REPORT"` —
contradicting the claim that a persistence failure never replaces the
generated report with an error report. -/
theorem c3_counterexample :
    depsPersistFail.invoke "h" "c" "t" = Except.ok "REPORT" ∧
    (analyze_log_data demoReg depsPersistFail vsEmpty "attack" "nginx").1.summary =
      "## AI Analysis Error\n\n**Error:** disk full" ∧
    (analyze_log_data demoReg depsPersistFail vsEmpty "attack" "nginx").1.summary ≠
      "REPORT" :=
  ⟨rfl, by decide, by decide⟩

/-- C3 (amended): if the semantic-cache insert or persistence step raises
after a report has been generated, the exception is caught by the same
handler as generation errors: the request does not fail with an unhandled
exception, but the result is the `"## AI Analysis Error"` error report
(carrying the scan Findings under `details.regex_findings`), not the freshly
generated report. -/
theorem c3_persist_failure_returns_error_report
    (reg : Registry) (deps : Deps) (vs : VectorStore) (log_content log_type ai e : String)
    (hready : deps.ready = true)
    (hfind : (scan_log_and_summarize reg log_content log_type).1 ≠ [])
    (hmiss : similarity_search_with_relevance_scores vs
      ("LogType: " ++ log_type ++ "\n" ++ (scan_log_and_summarize reg log_content log_type).2) = [])
    (hok : deps.invoke
        ("# Security Report: " ++ pyCapitalize log_type ++ " Log\n\n_" ++ deps.now ++ "_")
        (scan_log_and_summarize reg log_content log_type).2 (pyCapitalize log_type) =
      Except.ok ai)
    (hfail : deps.insertAndPersist vs
        ⟨ai, "LogType: " ++ log_type ++ "\n" ++ (scan_log_and_summarize reg log_content log_type).2⟩ =
      Except.error e) :
    (analyze_log_data reg deps vs log_content log_type).1 =
      { summary := "## AI Analysis Error\n\n**Error:** " ++ e,
        detailed_findings := none, source := none,
        details_regex_findings := some (scan_log_and_summarize reg log_content log_type).1 } ∧
    (analyze_log_data reg deps vs log_content log_type).2 = vs := by
  have hempty := isEmpty_false_of_ne_nil hfind
  simp [analyze_log_data, hready, hempty, hmiss, hok, hfail]

/-- C3 witness: the amended theorem applied to dependencies whose persistence
step raises `"disk full"` after generating `"REPORT"`. -/
theorem c3_persist_failure_returns_error_report_witness :
    (analyze_log_data demoReg depsPersistFail vsEmpty "attack" "nginx").1 =
      { summary := "## AI Analysis Error\n\n**Error:** " ++ "disk full",
        detailed_findings := none, source := none,
        details_regex_findings := some (scan_log_and_summarize demoReg "attack" "nginx").1 } ∧
    (analyze_log_data demoReg depsPersistFail vsEmpty "attack" "nginx").2 = vsEmpty :=
  c3_persist_failure_returns_error_report demoReg depsPersistFail vsEmpty
    "attack" "nginx" "REPORT" "disk full" rfl (by decide) rfl rfl rfl

lemma newly_ne_retrieved :
    ("Newly Generated by AI" : String) ≠ "Retrieved from Semantic Cache" := by decide

/-- C4: the lookup queries the store with the key
`"LogType: <tag>\n<summary>"`, and (when the pipeline is ready and the scan
found something) the result is served from the semantic cache exactly when
the relevance score of the nearest stored entry meets or exceeds the fixed
threshold 0.95; in that case the served body is the stored text of that entry,
and any result below the threshold is a plain miss that falls through to
generation — there is no partial or low-confidence hit. -/
theorem c4_similarity_threshold_gates_hit
    (reg : Registry) (deps : Deps) (vs : VectorStore) (log_content log_type : String)
    (hready : deps.ready = true)
    (hfind : (scan_log_and_summarize reg log_content log_type).1 ≠ []) :
    (((analyze_log_data reg deps vs log_content log_type).1.source =
        some "Retrieved from Semantic Cache") ↔
      ∃ es : CacheEntry × ℚ,
        bestEntry vs ("LogType: " ++ log_type ++ "\n" ++
          (scan_log_and_summarize reg log_content log_type).2) = some es ∧
        score_threshold ≤ es.2) ∧
    (∀ es : CacheEntry × ℚ,
      bestEntry vs ("LogType: " ++ log_type ++ "\n" ++
        (scan_log_and_summarize reg log_content log_type).2) = some es →
      score_threshold ≤ es.2 →
      (analyze_log_data reg deps vs log_content log_type).1.summary = es.1.content) := by
  have hempty := isEmpty_false_of_ne_nil hfind
  cases hbe : bestEntry vs ("LogType: " ++ log_type ++ "\n" ++
      (scan_log_and_summarize reg log_content log_type).2) with
  | none =>
    have hms : similarity_search_with_relevance_scores vs ("LogType: " ++ log_type ++ "\n" ++
        (scan_log_and_summarize reg log_content log_type).2) = [] := by
      simp [similarity_search_with_relevance_scores, hbe]
    refine ⟨⟨fun hsrc => ?_, fun ⟨es, hbe', _⟩ => Option.noConfusion hbe'⟩,
      fun es hbe' _ => Option.noConfusion hbe'⟩
    cases hinv : deps.invoke
        ("# Security Report: " ++ pyCapitalize log_type ++ " Log\n\n_" ++ deps.now ++ "_")
        (scan_log_and_summarize reg log_content log_type).2 (pyCapitalize log_type) with
    | error e => simp [analyze_log_data, hready, hempty, hms, hinv] at hsrc
    | ok ai =>
      cases hpers : deps.insertAndPersist vs
          ⟨ai, "LogType: " ++ log_type ++ "\n" ++
            (scan_log_and_summarize reg log_content log_type).2⟩ with
      | error e => simp [analyze_log_data, hready, hempty, hms, hinv, hpers] at hsrc
      | ok vs2 =>
        simp [analyze_log_data, hready, hempty, hms, hinv, hpers] at hsrc
  | some es =>
    obtain ⟨en, s⟩ := es
    by_cases hts : score_threshold ≤ s
    · have hms : similarity_search_with_relevance_scores vs ("LogType: " ++ log_type ++ "\n" ++
          (scan_log_and_summarize reg log_content log_type).2) = [(en, s)] := by
        simp [similarity_search_with_relevance_scores, hbe, hts]
      refine ⟨⟨fun _ => ⟨(en, s), rfl, hts⟩, fun _ => ?_⟩, fun es' hbe' _ => ?_⟩
      · simp [analyze_log_data, hready, hempty, hms]
      · have hes : es' = (en, s) := (Option.some.inj hbe').symm
        subst hes
        simp [analyze_log_data, hready, hempty, hms]
    · have hms : similarity_search_with_relevance_scores vs ("LogType: " ++ log_type ++ "\n" ++
          (scan_log_and_summarize reg log_content log_type).2) = [] := by
        simp [similarity_search_with_relevance_scores, hbe, hts]
      refine ⟨⟨fun hsrc => ?_, fun ⟨es', hbe', hts'⟩ => ?_⟩, fun es' hbe' hts' => ?_⟩
      · cases hinv : deps.invoke
            ("# Security Report: " ++ pyCapitalize log_type ++ " Log\n\n_" ++ deps.now ++ "_")
            (scan_log_and_summarize reg log_content log_type).2 (pyCapitalize log_type) with
        | error e => simp [analyze_log_data, hready, hempty, hms, hinv] at hsrc
        | ok ai =>
          cases hpers : deps.insertAndPersist vs
              ⟨ai, "LogType: " ++ log_type ++ "\n" ++
                (scan_log_and_summarize reg log_content log_type).2⟩ with
          | error e => simp [analyze_log_data, hready, hempty, hms, hinv, hpers] at hsrc
          | ok vs2 =>
            simp [analyze_log_data, hready, hempty, hms, hinv, hpers] at hsrc
      · have hes : es' = (en, s) := (Option.some.inj hbe').symm
        subst hes
        exact absurd hts' hts
      · have hes : es' = (en, s) := (Option.some.inj hbe').symm
        subst hes
        exact absurd hts' hts

/-- C4 witness: with a stored entry at similarity 1 ≥ 0.95, the result is the
cache hit serving `"CACHED REPORT"`. -/
theorem c4_similarity_threshold_gates_hit_witness :
    (analyze_log_data demoReg depsOK vsHit "attack" "nginx").1.source =
        some "Retrieved from Semantic Cache" ∧
    (analyze_log_data demoReg depsOK vsHit "attack" "nginx").1.summary = "CACHED REPORT" := by
  have h := c4_similarity_threshold_gates_hit demoReg depsOK vsHit "attack" "nginx"
    rfl (by decide)
  exact ⟨h.1.mpr ⟨(entryCached, mkRat 1 1), by decide, by decide⟩,
    h.2 (entryCached, mkRat 1 1) (by decide) (by decide)⟩

/-- C10: whenever the result of `analyze_log_data` is a semantic-cache hit
(its `source` field says so), the `detailed_findings` field is exactly the
scan of the submitted log content — findings are always freshly computed —
and only the report body (`summary`) is served from the cache: it equals the
stored text of the best-matching entry, whose score met the threshold, and
the store itself is unchanged. -/
theorem c10_hit_pairs_cached_body_with_fresh_scan
    (reg : Registry) (deps : Deps) (vs : VectorStore) (log_content log_type : String)
    (hhit : (analyze_log_data reg deps vs log_content log_type).1.source =
      some "Retrieved from Semantic Cache") :
    (analyze_log_data reg deps vs log_content log_type).1.detailed_findings =
        some (scan_log_and_summarize reg log_content log_type).1 ∧
    ∃ es : CacheEntry × ℚ,
      bestEntry vs ("LogType: " ++ log_type ++ "\n" ++
        (scan_log_and_summarize reg log_content log_type).2) = some es ∧
      score_threshold ≤ es.2 ∧
      (analyze_log_data reg deps vs log_content log_type).1.summary = es.1.content ∧
      (analyze_log_data reg deps vs log_content log_type).2 = vs := by
  cases hr : deps.ready with
  | false => simp [analyze_log_data, hr] at hhit
  | true =>
    cases hemp : (scan_log_and_summarize reg log_content log_type).1.isEmpty with
    | true => simp [analyze_log_data, hr, hemp] at hhit
    | false =>
      cases hbe : bestEntry vs ("LogType: " ++ log_type ++ "\n" ++
          (scan_log_and_summarize reg log_content log_type).2) with
      | none =>
        have hms : similarity_search_with_relevance_scores vs ("LogType: " ++ log_type ++ "\n" ++
            (scan_log_and_summarize reg log_content log_type).2) = [] := by
          simp [similarity_search_with_relevance_scores, hbe]
        cases hinv : deps.invoke
            ("# Security Report: " ++ pyCapitalize log_type ++ " Log\n\n_" ++ deps.now ++ "_")
            (scan_log_and_summarize reg log_content log_type).2 (pyCapitalize log_type) with
        | error e => simp [analyze_log_data, hr, hemp, hms, hinv] at hhit
        | ok ai =>
          cases hpers : deps.insertAndPersist vs
              ⟨ai, "LogType: " ++ log_type ++ "\n" ++
                (scan_log_and_summarize reg log_content log_type).2⟩ with
          | error e => simp [analyze_log_data, hr, hemp, hms, hinv, hpers] at hhit
          | ok vs2 =>
            simp [analyze_log_data, hr, hemp, hms, hinv, hpers] at hhit
      | some es =>
        obtain ⟨en, s⟩ := es
        by_cases hts : score_threshold ≤ s
        · have hms : similarity_search_with_relevance_scores vs ("LogType: " ++ log_type ++ "\n" ++
              (scan_log_and_summarize reg log_content log_type).2) = [(en, s)] := by
            simp [similarity_search_with_relevance_scores, hbe, hts]
          refine ⟨?_, (en, s), rfl, hts, ?_, ?_⟩ <;>
            simp [analyze_log_data, hr, hemp, hms]
        · have hms : similarity_search_with_relevance_scores vs ("LogType: " ++ log_type ++ "\n" ++
              (scan_log_and_summarize reg log_content log_type).2) = [] := by
            simp [similarity_search_with_relevance_scores, hbe, hts]
          cases hinv : deps.invoke
              ("# Security Report: " ++ pyCapitalize log_type ++ " Log\n\n_" ++ deps.now ++ "_")
              (scan_log_and_summarize reg log_content log_type).2 (pyCapitalize log_type) with
          | error e => simp [analyze_log_data, hr, hemp, hms, hinv] at hhit
          | ok ai =>
            cases hpers : deps.insertAndPersist vs
                ⟨ai, "LogType: " ++ log_type ++ "\n" ++
                  (scan_log_and_summarize reg log_content log_type).2⟩ with
            | error e => simp [analyze_log_data, hr, hemp, hms, hinv, hpers] at hhit
            | ok vs2 =>
              simp [analyze_log_data, hr, hemp, hms, hinv, hpers] at hhit

/-- C10 witness: on a concrete cache hit the findings equal the fresh scan
and the summary is the text of the stored entry. -/
theorem c10_hit_pairs_cached_body_with_fresh_scan_witness :
    (analyze_log_data demoReg depsOK vsHit "attack" "nginx").1.detailed_findings =
        some (scan_log_and_summarize demoReg "attack" "nginx").1 ∧
    ∃ es : CacheEntry × ℚ,
      bestEntry vsHit ("LogType: " ++ "nginx" ++ "\n" ++
        (scan_log_and_summarize demoReg "attack" "nginx").2) = some es ∧
      score_threshold ≤ es.2 ∧
      (analyze_log_data demoReg depsOK vsHit "attack" "nginx").1.summary = es.1.content ∧
      (analyze_log_data demoReg depsOK vsHit "attack" "nginx").2 = vsHit :=
  c10_hit_pairs_cached_body_with_fresh_scan demoReg depsOK vsHit "attack" "nginx" (by decide)

/-- C1 counterexample: submitting byte-identical content with the same format
tag twice: the second job is served from the job-result cache verbatim, so
both the first and the second job report carry
`source = "Newly Generated by AI"` — the provenance of the second submission
is `generated`, not `cache`, contradicting the provenance clause of the
claim. -/
theorem c1_counterexample :
    ((dictFind (start_log_analysis idHash demoReg depsOK
          (start_log_analysis idHash demoReg depsOK demoState "attack" "nginx" "job1")
          "attack" "nginx" "job2").jobs "job2").bind JobRecord.result).map
        AnalyzeResult.source = some (some "Newly Generated by AI") ∧
    ((dictFind (start_log_analysis idHash demoReg depsOK demoState "attack" "nginx"
          "job1").jobs "job1").bind JobRecord.result).map AnalyzeResult.source =
        some (some "Newly Generated by AI") ∧
    ("Newly Generated by AI" : String) ≠ "Retrieved from Semantic Cache" := by
  decide

/-- C1 (amended): a second submission of byte-identical content with an
identical format tag short-circuits to the `analysis_cache` lookup keyed by
`content-hash ++ "_" ++ log_type`: it does not re-run the analysis (the
result cache and the vector store are untouched) and its job completes with
the stored result verbatim — hence the provenance field of the second report
equals that of the first (`generated`) rather than switching to `cache`. -/
theorem c1_dedup_short_circuits
    (hash : String → String) (reg : Registry) (deps : Deps) (st : OrchState)
    (log_content log_type jid1 jid2 : String)
    (hnew : dictFind st.analysisCache (hash log_content ++ "_" ++ log_type) = none) :
    ∃ res : AnalyzeResult,
      dictFind (start_log_analysis hash reg deps st log_content log_type jid1).analysisCache
          (hash log_content ++ "_" ++ log_type) = some res ∧
      dictFind (start_log_analysis hash reg deps st log_content log_type jid1).jobs jid1 =
          some ⟨"complete", none, some res⟩ ∧
      dictFind (start_log_analysis hash reg deps
          (start_log_analysis hash reg deps st log_content log_type jid1)
          log_content log_type jid2).jobs jid2 = some ⟨"complete", none, some res⟩ ∧
      (start_log_analysis hash reg deps
          (start_log_analysis hash reg deps st log_content log_type jid1)
          log_content log_type jid2).analysisCache =
        (start_log_analysis hash reg deps st log_content log_type jid1).analysisCache ∧
      (start_log_analysis hash reg deps
          (start_log_analysis hash reg deps st log_content log_type jid1)
          log_content log_type jid2).vs =
        (start_log_analysis hash reg deps st log_content log_type jid1).vs := by
  refine ⟨(analyze_log_data reg deps st.vs log_content log_type).1, ?_, ?_, ?_, ?_, ?_⟩ <;>
    simp [start_log_analysis, run_analysis_in_background, hnew, dictFind_dictInsert_self]

/-- C1 witness: the amended theorem applied to a fresh orchestrator state and
two concrete submissions of the same content and tag. -/
theorem c1_dedup_short_circuits_witness :
    ∃ res : AnalyzeResult,
      dictFind (start_log_analysis idHash demoReg depsOK demoState "attack" "nginx"
          "job1").analysisCache (idHash "attack" ++ "_" ++ "nginx") = some res ∧
      dictFind (start_log_analysis idHash demoReg depsOK demoState "attack" "nginx"
          "job1").jobs "job1" = some ⟨"complete", none, some res⟩ ∧
      dictFind (start_log_analysis idHash demoReg depsOK
          (start_log_analysis idHash demoReg depsOK demoState "attack" "nginx" "job1")
          "attack" "nginx" "job2").jobs "job2" = some ⟨"complete", none, some res⟩ ∧
      (start_log_analysis idHash demoReg depsOK
          (start_log_analysis idHash demoReg depsOK demoState "attack" "nginx" "job1")
          "attack" "nginx" "job2").analysisCache =
        (start_log_analysis idHash demoReg depsOK demoState "attack" "nginx"
          "job1").analysisCache ∧
      (start_log_analysis idHash demoReg depsOK
          (start_log_analysis idHash demoReg depsOK demoState "attack" "nginx" "job1")
          "attack" "nginx" "job2").vs =
        (start_log_analysis idHash demoReg depsOK demoState "attack" "nginx" "job1").vs :=
  c1_dedup_short_circuits idHash demoReg depsOK demoState "attack" "nginx" "job1" "job2" rfl

end NginxAI
